import Mathlib

/-
Verification development for the neutron-source library
(`src/source/source.py` of the repository).

The Python module defines a `Source` entity holding seven
measurement-with-uncertainty attributes (`Magnitude` objects from the
companion quantity package) together with derived-quantity methods
(`decay_time`, `decay_factor`, `strength`, `fluence_rate`,
`ambient_dose_equivalent_rate`), a per-assignment consistency check
(`__setattr__` / `check_consistency`), and a date helper
(`_elapsed_time`).

Conventions of the embedding:
* real numbers stand for Python floats (exact real arithmetic);
* Python exceptions become `Except Err` results;
* Python object mutation is rendered by explicit state passing: every
  derived-quantity method returns its result together with the post-state
  of the `Source` object, so that frame properties are expressible.
-/

namespace NeutronSource

/-! ### Calendar dates

`_elapsed_time` in the source parses two `'%Y/%m/%d'` strings with
`datetime.strptime` and returns the whole-day difference of the two
dates.  We embed the proleptic Gregorian calendar exactly as Python's
`datetime.date.toordinal` computes it. -/

/-- Gregorian leap-year test, as in Python's `calendar.isleap`. -/
def isLeapYear (y : Nat) : Bool :=
  (y % 4 == 0 && y % 100 != 0) || (y % 400 == 0)

/-- Number of days of month `m` (1-12) in year `y`. -/
def daysInMonth (y m : Nat) : Nat :=
  if m = 2 then (if isLeapYear y then 29 else 28)
  else if m = 4 ∨ m = 6 ∨ m = 9 ∨ m = 11 then 30
  else 31

/-- Days in year `y` strictly before month `m`. -/
def daysBeforeMonth (y m : Nat) : Nat :=
  (List.range (m - 1)).foldl (fun acc i => acc + daysInMonth y (i + 1)) 0

/-- Proleptic Gregorian ordinal of a date, with 0001/01/01 mapping to 1,
exactly as Python's `datetime.date.toordinal`. -/
def toOrdinal (y m d : Nat) : Nat :=
  (y - 1) * 365 + (y - 1) / 4 - (y - 1) / 100 + (y - 1) / 400
    + daysBeforeMonth y m + d

/-- Split a character list at every `'/'` (model of the `'%Y/%m/%d'`
field structure used by `datetime.strptime`). -/
def splitSlash : List Char → List (List Char)
  | [] => [[]]
  | c :: rest =>
    let r := splitSlash rest
    if c = '/' then [] :: r
    else
      match r with
      | [] => [[c]]
      | g :: gs => (c :: g) :: gs

/-- Numeric value of a decimal digit character. -/
def digitVal (c : Char) : Option Nat :=
  if '0' ≤ c ∧ c ≤ '9' then some (c.toNat - '0'.toNat) else none

/-- Parse a non-empty all-digit character list as a natural number. -/
def parseNatDigits (cs : List Char) : Option Nat :=
  cs.foldl (fun acc c => acc.bind fun n => (digitVal c).map fun d => n * 10 + d)
    (some 0)

/-- Parse a `YYYY/MM/DD` date string into `(year, month, day)`,
validating the calendar ranges as `datetime.strptime('%Y/%m/%d')` does;
`none` models the `ValueError` raised on malformed input. -/
def parseDate (s : String) : Option (Nat × Nat × Nat) :=
  match splitSlash s.data with
  | [ys, ms, ds] =>
    if ys.length = 4 ∧ ms.length = 2 ∧ ds.length = 2 then
      match parseNatDigits ys, parseNatDigits ms, parseNatDigits ds with
      | some y, some m, some d =>
        if 1 ≤ y ∧ 1 ≤ m ∧ m ≤ 12 ∧ 1 ≤ d ∧ d ≤ daysInMonth y m then
          some (y, m, d)
        else none
      | _, _, _ => none
    else none
  | _ => none

/-- `_elapsed_time(initial_date, final_date)` from the source: parse both
dates and return the whole-day difference `(final - initial).days`;
`none` models the parse failure. -/
def elapsed_time (initial_date final_date : String) : Option Int :=
  match parseDate initial_date, parseDate final_date with
  | some (y1, m1, d1), some (y2, m2, d2) =>
    some ((toOrdinal y2 m2 d2 : Int) - (toOrdinal y1 m1 d1 : Int))
  | _, _ => none

/-! ### Errors

Python exceptions relevant to the embedded code, as structured values. -/

/-- Attribute names of the `Magnitude`-valued fields of a `Source`
(`standard_units` keys in the source module). -/
inductive Attr
  | calibration_strength
  | half_life
  | anisotropy_factor
  | linear_attenuation_coefficient
  | fluence_to_dose_conversion_factor
  | neutron_effectiveness
  | total_air_scatter_component
deriving DecidableEq

/-- Errors raised by the embedded code: the four `ValueError`s of
`Source.check_consistency`, the quantity-construction failures of the
`Magnitude` package (`InvalidMagnitude` and Python's
`ZeroDivisionError`), the `strptime` parse failure, and attribute
access on an unset (`None`) field. -/
inductive Err
  | negValue (a : Attr)
  | negUncertainty (a : Attr)
  | negRelUncertainty (a : Attr)
  | nonStandardUnit (a : Attr)
  | invalidMagnitude
  | zeroDivision
  | parseError
  | attributeError
deriving DecidableEq

noncomputable section

/-! ### The quantity type (`Magnitude`)

Modelled from the spec: the `Magnitude` class lives in the companion
quantity package, which is not part of this repository's sources.  Per
the spec (§3, §4.1) a quantity is a value bound to a unit string plus
both uncertainty representations, one supplied at construction and the
other derived eagerly via `relative = absolute / value` (division by
zero when `value = 0` is a failure) and `absolute = value × relative`;
construction fails when the value or either uncertainty form is
negative.  Relative uncertainties are stored as fractions (0.013 for
1.3%), the convention pinned by the repository's own test vectors.  -/

structure Magnitude where
  value : ℝ
  unit : String
  uncertainty : ℝ
  relative_uncertainty : ℝ

/-- Modelled from the spec: `Magnitude(value, unit, uncertainty=...)` —
the relative uncertainty is derived as `uncertainty / value`, raising a
`ZeroDivisionError` when `value = 0`, and the construction is rejected
when the value or either uncertainty form is negative. -/
def Magnitude.ofAbsolute (value : ℝ) (unit : String) (uncertainty : ℝ) :
    Except Err Magnitude :=
  if value = 0 then .error .zeroDivision
  else
    let r := uncertainty / value
    if value < 0 ∨ uncertainty < 0 ∨ r < 0 then .error .invalidMagnitude
    else .ok ⟨value, unit, uncertainty, r⟩

/-- Modelled from the spec: `Magnitude(value, unit,
relative_uncertainty=...)` — the absolute uncertainty is derived as
`value × relative_uncertainty`, and the construction is rejected when
the value or either uncertainty form is negative. -/
def Magnitude.ofRelative (value : ℝ) (unit : String) (relative : ℝ) :
    Except Err Magnitude :=
  let u := value * relative
  if value < 0 ∨ u < 0 ∨ relative < 0 then .error .invalidMagnitude
  else .ok ⟨value, unit, u, relative⟩

/-- Modelled from the spec: `copy.copy` of a quantity yields a fresh
object with the same fields, so mutating the copy leaves the original
untouched; on values this is the identity. -/
def Magnitude.copy (m : Magnitude) : Magnitude := m

/-- Modelled from the spec: assigning `.value` keeps the stored relative
uncertainty and re-derives the absolute uncertainty from it (the
convention pinned by the repository's decay-factor test vector, where
the years-to-days conversion leaves the relative uncertainty of the
half-life unchanged). -/
def Magnitude.setValue (m : Magnitude) (v : ℝ) : Magnitude :=
  ⟨v, m.unit, v * m.relative_uncertainty, m.relative_uncertainty⟩

/-- Modelled from the spec: assigning `.unit` replaces the unit token
(used by the source to force the unit of derived quantities). -/
def Magnitude.setUnit (m : Magnitude) (u : String) : Magnitude :=
  { m with unit := u }

/-- Modelled from the spec: `a * b` produces a new quantity whose value
is the product, whose relative uncertainties combine as
`sqrt(ur_a² + ur_b²)`, whose absolute uncertainty is derived from the
relative one, and whose unit concatenates the operand units. -/
def Magnitude.mul (a b : Magnitude) : Magnitude :=
  let r := Real.sqrt (a.relative_uncertainty ^ 2 + b.relative_uncertainty ^ 2)
  ⟨a.value * b.value, a.unit ++ "·" ++ b.unit, a.value * b.value * r, r⟩

/-- Modelled from the spec: `a / b` produces a new quantity whose value
is the quotient (Python raises `ZeroDivisionError` on a zero divisor),
whose relative uncertainties combine as `sqrt(ur_a² + ur_b²)`, whose
absolute uncertainty is derived from the relative one, and whose unit
forms a ratio token. -/
def Magnitude.div (a b : Magnitude) : Except Err Magnitude :=
  if b.value = 0 then .error .zeroDivision
  else
    let r := Real.sqrt (a.relative_uncertainty ^ 2 + b.relative_uncertainty ^ 2)
    .ok ⟨a.value / b.value, a.unit ++ "/" ++ b.unit, a.value / b.value * r, r⟩

end

noncomputable section

/-! ### Module-level constants of `source.py` -/

/-- `time_uncertainty_days = 1`: uncertainty of an elapsed time, one day
by convention. -/
def time_uncertainty_days : ℝ := 1

/-- `conversion_years_to_days = 365.242`: fixed conversion constant with
zero assumed uncertainty. -/
def conversion_years_to_days : ℝ := 365.242

/-- `conversion_psv_s_to_usv_h = Magnitude(value=0.0036,
unit='uSv·s/pSv/h', uncertainty=0)`: the stored quantity (relative
uncertainty `0 / 0.0036 = 0`). -/
def conversion_psv_s_to_usv_h : Magnitude :=
  ⟨0.0036, "uSv·s/pSv/h", 0, 0⟩

/-- `standard_units`: the unit used by convention for each attribute. -/
def standard_units : Attr → String
  | .calibration_strength => "1/s"
  | .half_life => "y"
  | .anisotropy_factor => "ND"
  | .linear_attenuation_coefficient => "1/cm"
  | .fluence_to_dose_conversion_factor => "pSv·cm²"
  | .neutron_effectiveness => "ND"
  | .total_air_scatter_component => "1/cm"

/-- Python name of an attribute (the `__dict__` key). -/
def Attr.key : Attr → String
  | .calibration_strength => "calibration_strength"
  | .half_life => "half_life"
  | .anisotropy_factor => "anisotropy_factor"
  | .linear_attenuation_coefficient => "linear_attenuation_coefficient"
  | .fluence_to_dose_conversion_factor => "fluence_to_dose_conversion_factor"
  | .neutron_effectiveness => "neutron_effectiveness"
  | .total_air_scatter_component => "total_air_scatter_component"

/-! ### The `Source` entity

The instance `__dict__` of a `Source`: `name`, `calibration_date`, and
the seven `Magnitude`-valued attributes, in the insertion order of
`Source.__init__`.  `none` stands for Python's `None` (the state left
by `__init__` before a subclass or caller populates the field). -/

structure Source where
  name : String
  calibration_date : Option String
  calibration_strength : Option Magnitude
  half_life : Option Magnitude
  anisotropy_factor : Option Magnitude
  linear_attenuation_coefficient : Option Magnitude
  fluence_to_dose_conversion_factor : Option Magnitude
  neutron_effectiveness : Option Magnitude
  total_air_scatter_component : Option Magnitude

/-- `Source.__init__`: every attribute starts as `None` (the checks are
skipped for `None`); the name is the class name. -/
def Source.new : Source :=
  ⟨"Source", none, none, none, none, none, none, none, none⟩

/-- Read a `Magnitude`-valued attribute. -/
def Source.get (s : Source) : Attr → Option Magnitude
  | .calibration_strength => s.calibration_strength
  | .half_life => s.half_life
  | .anisotropy_factor => s.anisotropy_factor
  | .linear_attenuation_coefficient => s.linear_attenuation_coefficient
  | .fluence_to_dose_conversion_factor => s.fluence_to_dose_conversion_factor
  | .neutron_effectiveness => s.neutron_effectiveness
  | .total_air_scatter_component => s.total_air_scatter_component

/-- Store a `Magnitude`-valued attribute (the `self.__dict__[name] =
value` step of `Source.__setattr__`). -/
def Source.store (s : Source) : Attr → Option Magnitude → Source
  | .calibration_strength, v => { s with calibration_strength := v }
  | .half_life, v => { s with half_life := v }
  | .anisotropy_factor, v => { s with anisotropy_factor := v }
  | .linear_attenuation_coefficient, v =>
      { s with linear_attenuation_coefficient := v }
  | .fluence_to_dose_conversion_factor, v =>
      { s with fluence_to_dose_conversion_factor := v }
  | .neutron_effectiveness, v => { s with neutron_effectiveness := v }
  | .total_air_scatter_component, v =>
      { s with total_air_scatter_component := v }

/-- A value stored in the instance `__dict__`: a string (`name`, a set
`calibration_date`), `None`, or a quantity. -/
inductive PyVal
  | pstr (s : String)
  | pnone
  | pmag (m : Magnitude)

/-- Render an optional quantity as a `__dict__` value. -/
def optMag : Option Magnitude → PyVal
  | none => .pnone
  | some m => .pmag m

/-- Render an optional string as a `__dict__` value. -/
def optStr : Option String → PyVal
  | none => .pnone
  | some str => .pstr str

/-- The instance `__dict__` of a `Source`, keys in the insertion order
of `Source.__init__`. -/
def Source.dict (s : Source) : List (String × PyVal) :=
  [("name", .pstr s.name),
   ("calibration_date", optStr s.calibration_date),
   ("calibration_strength", optMag s.calibration_strength),
   ("half_life", optMag s.half_life),
   ("anisotropy_factor", optMag s.anisotropy_factor),
   ("linear_attenuation_coefficient", optMag s.linear_attenuation_coefficient),
   ("fluence_to_dose_conversion_factor",
     optMag s.fluence_to_dose_conversion_factor),
   ("neutron_effectiveness", optMag s.neutron_effectiveness),
   ("total_air_scatter_component", optMag s.total_air_scatter_component)]

/-- `Source.numeric_attributes`: every `__dict__` item whose key is
neither `'name'` nor `'calibration_date'`, in `__dict__` order. -/
def Source.numeric_attributes (s : Source) : List (String × PyVal) :=
  s.dict.filter fun kv => kv.1 != "name" && kv.1 != "calibration_date"

/-- `Source.check_consistency(attr)`: for a set attribute, reject a
negative value, then a negative uncertainty, then a negative relative
uncertainty, then a non-standard unit; `none` when consistent or when
the attribute is `None`. -/
def Source.check_consistency (s : Source) (a : Attr) : Option Err :=
  match s.get a with
  | none => none
  | some m =>
    if m.value < 0 then some (.negValue a)
    else if m.uncertainty < 0 then some (.negUncertainty a)
    else if m.relative_uncertainty < 0 then some (.negRelUncertainty a)
    else if m.unit ≠ standard_units a then some (.nonStandardUnit a)
    else none

/-- `Source.__setattr__` for a `Magnitude`-valued attribute: the value
is written into `__dict__` first, and only then is
`check_consistency` run (the attribute's key is always listed by
`numeric_attributes`).  The returned pair is the post-state together
with the raised error, if any: an error does not undo the write. -/
def Source.setattr (s : Source) (a : Attr) (v : Option Magnitude) :
    Source × Option Err :=
  let s2 := s.store a v
  (s2, s2.check_consistency a)

end

noncomputable section

/-! ### Derived-quantity methods

Each method returns its result (or raised exception) together with the
post-state of the `Source` object.  None of the Python methods assigns
to `self`; every in-place field update they perform hits a freshly
created object (an operator result, a `Magnitude` constructor result,
or an explicit `copy`), which the state threading below renders
faithfully. -/

/-- `decay_factor_value(t, t12) = exp(-log(2) * t / t12)` (the module
helper `_decay_factor_value`). -/
def decay_factor_value (t t12 : ℝ) : ℝ :=
  Real.exp (-Real.log 2 * t / t12)

/-- `decay_factor_uncertainty(t, t12, ur_t, ur_t12) =
sqrt((log(2) * t / t12)² * (ur_t² + ur_t12²))` (the module helper
`_decay_factor_uncertainty`). -/
def decay_factor_uncertainty (t t12 ur_t ur_t12 : ℝ) : ℝ :=
  Real.sqrt ((Real.log 2 * t / t12) ^ 2 * (ur_t ^ 2 + ur_t12 ^ 2))

/-- `Source.decay_time(date)`: `t = _elapsed_time(calibration_date,
date)`, returned as `Magnitude(value=t, unit='d',
uncertainty=time_uncertainty_days)`.  An unset calibration date makes
`strptime` raise; the `Magnitude` constructor raises on `t ≤ 0`. -/
def Source.decay_time (s : Source) (date : String) :
    Except Err Magnitude × Source :=
  match s.calibration_date with
  | none => (.error .attributeError, s)
  | some cal =>
    match elapsed_time cal date with
    | none => (.error .parseError, s)
    | some t => (Magnitude.ofAbsolute (t : ℝ) "d" time_uncertainty_days, s)

/-- `Source.decay_factor(date)`: `t12` is a `copy` of `half_life` whose
value is rescaled to days; `t` is `decay_time(date)`; the result is
`Magnitude(value=_decay_factor_value(...), unit='ND',
relative_uncertainty=_decay_factor_uncertainty(...))`.  The division by
`t12` raises when the rescaled half-life is zero. -/
def Source.decay_factor (s : Source) (date : String) :
    Except Err Magnitude × Source :=
  match s.half_life with
  | none => (.error .attributeError, s)
  | some hl =>
    let t12 := (Magnitude.copy hl).setValue (hl.value * conversion_years_to_days)
    match s.decay_time date with
    | (.error e, s1) => (.error e, s1)
    | (.ok t, s1) =>
      if t12.value = 0 then (.error .zeroDivision, s1)
      else
        (Magnitude.ofRelative (decay_factor_value t.value t12.value) "ND"
          (decay_factor_uncertainty t.value t12.value
            t.relative_uncertainty t12.relative_uncertainty), s1)

/-- `Source.strength(date)`: exact passthrough of
`calibration_strength` when `date == calibration_date`; otherwise
`b = calibration_strength * decay_factor(date)` with `b.unit` forced to
`'1/s'`. -/
def Source.strength (s : Source) (date : String) :
    Except Err Magnitude × Source :=
  if s.calibration_date = some date then
    match s.calibration_strength with
    | none => (.error .attributeError, s)
    | some b0 => (.ok b0, s)
  else
    match s.calibration_strength with
    | none => (.error .attributeError, s)
    | some b0 =>
      match s.decay_factor date with
      | (.error e, s1) => (.error e, s1)
      | (.ok f, s1) => (.ok ((b0.mul f).setUnit "1/s"), s1)

/-- `Source.fluence_rate(date, distance)`:
`f = b * fi / 4 / pi / distance / distance` with `f.unit` forced to
`'1/cm²s'`; `4` and `pi` are exact (zero-uncertainty) quantities. -/
def Source.fluence_rate (s : Source) (date : String) (distance : Magnitude) :
    Except Err Magnitude × Source :=
  match s.strength date with
  | (.error e, s1) => (.error e, s1)
  | (.ok b, s1) =>
    match s1.anisotropy_factor with
    | none => (.error .attributeError, s1)
    | some fi =>
      let fourM : Magnitude := ⟨4, "ND", 0, 0⟩
      let piM : Magnitude := ⟨Real.pi, "ND", 0, 0⟩
      ((do
        let x1 ← (b.mul fi).div fourM
        let x2 ← x1.div piM
        let x3 ← x2.div distance
        let x4 ← x3.div distance
        pure (x4.setUnit "1/cm²s") : Except Err Magnitude), s1)

/-- `Source.ambient_dose_equivalent_rate(date, distance)`:
`h = hf * f * conversion_psv_s_to_usv_h` with `h.unit` forced to
`'uSv/h'`. -/
def Source.ambient_dose_equivalent_rate (s : Source) (date : String)
    (distance : Magnitude) : Except Err Magnitude × Source :=
  match s.fluence_to_dose_conversion_factor with
  | none => (.error .attributeError, s)
  | some hf =>
    match s.fluence_rate date distance with
    | (.error e, s1) => (.error e, s1)
    | (.ok f, s1) =>
      (.ok (((hf.mul f).mul conversion_psv_s_to_usv_h).setUnit "uSv/h"), s1)

/-! ### The example source `Cf`

`Cf.__init__` populates every attribute through `__setattr__` with
`Magnitude` constructor calls; each field below is the value those
constructors produce (the derived uncertainty form is written out). -/

/-- The reference 252-Cf source of the module (`class Cf`). -/
def Cf : Source where
  name := "252-Cf"
  calibration_date := some "2012/05/20"
  calibration_strength := some ⟨547100000, "1/s", 547100000 * 0.013, 0.013⟩
  half_life := some ⟨2.6470, "y", 0.0026, 0.0026 / 2.6470⟩
  anisotropy_factor := some ⟨1.051, "ND", 0.019, 0.019 / 1.051⟩
  linear_attenuation_coefficient :=
    some ⟨0.0001055, "1/cm", 0.0001055 * 0.015, 0.015⟩
  fluence_to_dose_conversion_factor := some ⟨385, "pSv·cm²", 385 * 0.01, 0.01⟩
  neutron_effectiveness := some ⟨0.5, "ND", 0.1, 0.1 / 0.5⟩
  total_air_scatter_component := some ⟨0.00012, "1/cm", 0.00012 * 0.15, 0.15⟩

/-- The consistency requirement that `check_consistency` enforces on an
attribute, as a proposition: non-negative value, non-negative absolute
and relative uncertainties, and the standard unit of the attribute. -/
def Magnitude.ValidFor (a : Attr) (m : Magnitude) : Prop :=
  0 ≤ m.value ∧ 0 ≤ m.uncertainty ∧ 0 ≤ m.relative_uncertainty ∧
    m.unit = standard_units a

end

/-! ## Helper lemmas -/

theorem Source.decay_time_eq_pos (s : Source) (cal date : String) (t : ℤ)
    (hc : s.calibration_date = some cal) (ht : elapsed_time cal date = some t)
    (hpos : 0 < t) :
    s.decay_time date = (.ok ⟨(t : ℝ), "d", 1, 1 / (t : ℝ)⟩, s) := by
  have htR : (0 : ℝ) < (t : ℝ) := by exact_mod_cast hpos
  simp only [Source.decay_time, hc, ht, Magnitude.ofAbsolute,
    time_uncertainty_days]
  rw [if_neg htR.ne', if_neg]
  push_neg
  exact ⟨htR.le, zero_le_one, div_nonneg zero_le_one htR.le⟩

theorem Source.decay_time_eq_cal (s : Source) (cal : String)
    (p : Nat × Nat × Nat) (hc : s.calibration_date = some cal)
    (hp : parseDate cal = some p) :
    s.decay_time cal = (.error .zeroDivision, s) := by
  obtain ⟨y, m, d⟩ := p
  have he : elapsed_time cal cal = some 0 := by
    simp [elapsed_time, hp]
  simp [Source.decay_time, hc, he, Magnitude.ofAbsolute]

/-! ## Claims -/

/-- Claim C5 counterexample: for the reference 252-Cf source and the
well-formed date `2010/05/20` (two years before calibration, a
whole-day difference of `-731`), `decay_time` does not return the
duration quantity the claim describes: the `Magnitude` construction is
rejected because the derived relative uncertainty `1 / (-731)` is
negative. -/
theorem claim5_counterexample :
    (Cf.decay_time "2010/05/20").1 = .error .invalidMagnitude ∧
      elapsed_time "2012/05/20" "2010/05/20" = some (-731) := by
  constructor
  · have he : elapsed_time "2012/05/20" "2010/05/20" = some (-731) := by decide
    have hc : Cf.calibration_date = some "2012/05/20" := rfl
    simp only [Source.decay_time, hc, he, Magnitude.ofAbsolute,
      time_uncertainty_days]
    norm_num
  · decide

/-- Claim C5 (amended): for every Source with calibration date set and
every pair of `YYYY/MM/DD` dates whose whole-day difference `t` is
positive (the queried date strictly after the calibration date),
`decay_time(date)` returns a Quantity of value `t` days, unit `'d'`,
absolute uncertainty exactly 1 day, and derived relative uncertainty
`1/t`; for differences `t ≤ 0` the quantity construction fails
instead. -/
theorem claim5_decay_time (s : Source) (cal date : String) (t : ℤ)
    (hc : s.calibration_date = some cal) (ht : elapsed_time cal date = some t)
    (hpos : 0 < t) :
    (s.decay_time date).1 = .ok ⟨(t : ℝ), "d", 1, 1 / (t : ℝ)⟩ := by
  rw [Source.decay_time_eq_pos s cal date t hc ht hpos]

/-- Claim C5 witness: the reference source, one year after calibration
(365 whole days). -/
theorem claim5_witness :
    (Cf.decay_time "2013/05/20").1 =
      .ok ⟨((365 : ℤ) : ℝ), "d", 1, 1 / ((365 : ℤ) : ℝ)⟩ :=
  claim5_decay_time Cf "2012/05/20" "2013/05/20" 365 rfl (by decide) (by decide)

/-- Claim C8: for the reference 252-Cf source calibrated on 2012/05/20,
`decay_time('2020/05/20')` is the quantity `2922 d ± 1 d` (with derived
relative uncertainty `1/2922`). -/
theorem claim8_decay_time_2922 :
    (Cf.decay_time "2020/05/20").1 = .ok ⟨(2922 : ℝ), "d", 1, 1 / 2922⟩ := by
  have h := Source.decay_time_eq_pos Cf "2012/05/20" "2020/05/20" 2922 rfl
    (by decide) (by decide)
  rw [h]
  norm_num

/-- Claim C9: for every Source whose calibration date is set to a
well-formed `YYYY/MM/DD` date, calling `decay_time` with the
calibration date itself yields an elapsed time of 0 days, and building
`Magnitude(value=0, unit='d', uncertainty=1)` divides the uncertainty
by the zero value when deriving the relative uncertainty, so the call
fails with a division-by-zero error instead of returning a zero-day
duration. -/
theorem claim9_decay_time_zero_division (s : Source) (cal : String)
    (p : Nat × Nat × Nat) (hc : s.calibration_date = some cal)
    (hp : parseDate cal = some p) :
    (s.decay_time cal).1 = .error .zeroDivision := by
  rw [Source.decay_time_eq_cal s cal p hc hp]

/-- Claim C9 witness: the reference source queried at its own
calibration date. -/
theorem claim9_witness :
    (Cf.decay_time "2012/05/20").1 = .error .zeroDivision :=
  claim9_decay_time_zero_division Cf "2012/05/20" (2012, 5, 20) rfl (by decide)

theorem Source.decay_factor_eq (s : Source) (cal date : String) (hl : Magnitude)
    (t : ℤ) (hhl : s.half_life = some hl) (hc : s.calibration_date = some cal)
    (ht : elapsed_time cal date = some t) (hpos : 0 < t)
    (h0 : hl.value ≠ 0) :
    s.decay_factor date =
      (.ok ⟨decay_factor_value (t : ℝ) (hl.value * conversion_years_to_days),
            "ND",
            decay_factor_value (t : ℝ) (hl.value * conversion_years_to_days) *
              decay_factor_uncertainty (t : ℝ)
                (hl.value * conversion_years_to_days) (1 / (t : ℝ))
                hl.relative_uncertainty,
            decay_factor_uncertainty (t : ℝ)
              (hl.value * conversion_years_to_days) (1 / (t : ℝ))
              hl.relative_uncertainty⟩, s) := by
  have hdt := Source.decay_time_eq_pos s cal date t hc ht hpos
  have h12 : hl.value * conversion_years_to_days ≠ 0 :=
    mul_ne_zero h0 (by norm_num [conversion_years_to_days])
  have hfpos :
      0 < decay_factor_value (t : ℝ) (hl.value * conversion_years_to_days) :=
    Real.exp_pos _
  have hunn :
      0 ≤ decay_factor_uncertainty (t : ℝ)
        (hl.value * conversion_years_to_days) (1 / (t : ℝ))
        hl.relative_uncertainty :=
    Real.sqrt_nonneg _
  simp only [Source.decay_factor, hhl, Magnitude.copy, Magnitude.setValue, hdt]
  rw [if_neg h12]
  simp only [Magnitude.ofRelative]
  rw [if_neg]
  push_neg
  exact ⟨hfpos.le, mul_nonneg hfpos.le hunn, hunn⟩

/-- Claim C3: for every Source with half-life and calibration date set
(to a nonzero half-life value, the formula's presupposition) and every
`YYYY/MM/DD` date strictly after the calibration date (whole-day
difference `t > 0`), `decay_factor(date)` returns a Quantity of unit
`'ND'` whose value is `exp(-ln(2)·t/t12)` and whose relative
uncertainty is `sqrt((ln(2)·t/t12)² · (ur(t)² + ur(t12)²))`, where
`t12` is the half-life value times 365.242, `ur(t) = 1/t` is the
relative uncertainty of the decay time, and `ur(t12)` is the half-life's
stored relative uncertainty, unchanged by the conversion. -/
theorem claim3_decay_factor (s : Source) (cal date : String) (hl : Magnitude)
    (t : ℤ) (hhl : s.half_life = some hl) (hc : s.calibration_date = some cal)
    (ht : elapsed_time cal date = some t) (hpos : 0 < t)
    (h0 : hl.value ≠ 0) :
    (s.decay_factor date).1 =
      .ok ⟨Real.exp (-Real.log 2 * (t : ℝ) /
              (hl.value * conversion_years_to_days)), "ND",
           Real.exp (-Real.log 2 * (t : ℝ) /
               (hl.value * conversion_years_to_days)) *
             Real.sqrt ((Real.log 2 * (t : ℝ) /
                 (hl.value * conversion_years_to_days)) ^ 2 *
               ((1 / (t : ℝ)) ^ 2 + hl.relative_uncertainty ^ 2)),
           Real.sqrt ((Real.log 2 * (t : ℝ) /
               (hl.value * conversion_years_to_days)) ^ 2 *
             ((1 / (t : ℝ)) ^ 2 + hl.relative_uncertainty ^ 2))⟩ := by
  rw [Source.decay_factor_eq s cal date hl t hhl hc ht hpos h0]
  rfl

/-- Claim C3 witness: the reference 252-Cf source eight years after
calibration (2922 whole days). -/
theorem claim3_witness :
    (Cf.decay_factor "2020/05/20").1 =
      .ok ⟨Real.exp (-Real.log 2 * ((2922 : ℤ) : ℝ) /
              ((2.6470 : ℝ) * conversion_years_to_days)), "ND",
           Real.exp (-Real.log 2 * ((2922 : ℤ) : ℝ) /
               ((2.6470 : ℝ) * conversion_years_to_days)) *
             Real.sqrt ((Real.log 2 * ((2922 : ℤ) : ℝ) /
                 ((2.6470 : ℝ) * conversion_years_to_days)) ^ 2 *
               ((1 / ((2922 : ℤ) : ℝ)) ^ 2 + ((0.0026 : ℝ) / 2.6470) ^ 2)),
           Real.sqrt ((Real.log 2 * ((2922 : ℤ) : ℝ) /
               ((2.6470 : ℝ) * conversion_years_to_days)) ^ 2 *
             ((1 / ((2922 : ℤ) : ℝ)) ^ 2 + ((0.0026 : ℝ) / 2.6470) ^ 2))⟩ :=
  claim3_decay_factor Cf "2012/05/20" "2020/05/20"
    ⟨2.6470, "y", 0.0026, 0.0026 / 2.6470⟩ 2922 rfl rfl (by decide) (by decide)
    (show (2.6470 : ℝ) ≠ 0 by norm_num)

theorem Source.decay_factor_eq_cal (s : Source) (cal : String) (hl : Magnitude)
    (p : Nat × Nat × Nat) (hhl : s.half_life = some hl)
    (hc : s.calibration_date = some cal) (hp : parseDate cal = some p) :
    s.decay_factor cal = (.error .zeroDivision, s) := by
  have hdt := Source.decay_time_eq_cal s cal p hc hp
  simp [Source.decay_factor, hhl, hdt]

/-- Claim C6 counterexample: for the reference 252-Cf source,
`decay_factor` evaluated at the calibration date does not return the
quantity `1.0`: the `decay_time` sub-call fails with a division-by-zero
error, which propagates. -/
theorem claim6_counterexample :
    (Cf.decay_factor "2012/05/20").1 = .error .zeroDivision := by
  rw [Source.decay_factor_eq_cal Cf "2012/05/20"
    ⟨2.6470, "y", 0.0026, 0.0026 / 2.6470⟩ (2012, 5, 20) rfl rfl (by decide)]

/-- Claim C6 (amended): for every Source with all attributes populated,
evaluation at the calibration date never reaches the decay formula:
`decay_factor(calibration_date)` fails with the division-by-zero error
of the zero-day `decay_time` quantity, while the intended `t = 0`
behavior holds only through `strength`, which short-circuits and
returns `calibration_strength` exactly. -/
theorem claim6_decay_factor_at_calibration (s : Source) (cal : String)
    (b0 hl : Magnitude) (p : Nat × Nat × Nat)
    (hc : s.calibration_date = some cal)
    (hb : s.calibration_strength = some b0) (hhl : s.half_life = some hl)
    (hp : parseDate cal = some p) :
    (s.decay_factor cal).1 = .error .zeroDivision ∧
      (s.strength cal).1 = .ok b0 := by
  constructor
  · rw [Source.decay_factor_eq_cal s cal hl p hhl hc hp]
  · simp [Source.strength, hc, hb]

/-- Claim C6 witness: the reference 252-Cf source at its calibration
date — decay factor fails, strength is the exact calibration
strength. -/
theorem claim6_witness :
    (Cf.decay_factor "2012/05/20").1 = .error .zeroDivision ∧
      (Cf.strength "2012/05/20").1 =
        .ok ⟨547100000, "1/s", 547100000 * 0.013, 0.013⟩ :=
  claim6_decay_factor_at_calibration Cf "2012/05/20"
    ⟨547100000, "1/s", 547100000 * 0.013, 0.013⟩
    ⟨2.6470, "y", 0.0026, 0.0026 / 2.6470⟩ (2012, 5, 20) rfl rfl rfl (by decide)

/-- Claim C2: for every Source with calibration date and calibration
strength set, `strength(date)` is the exact passthrough of
`calibration_strength` when `date` equals the calibration date (no
recomputation), and otherwise the product
`calibration_strength × decay_factor(date)` with the unit forced to
`'1/s'`; the product quantity multiplies the values, combines the
relative uncertainties as `sqrt(ur_B0² + ur_f²)`, and derives the
absolute uncertainty from the relative one. -/
theorem claim2_strength (s : Source) (cal : String) (b0 : Magnitude)
    (hc : s.calibration_date = some cal)
    (hb : s.calibration_strength = some b0) (date : String) :
    ((s.strength date).1 =
      if date = cal then .ok b0
      else ((s.decay_factor date).1).map fun f => (b0.mul f).setUnit "1/s") ∧
    ∀ f : Magnitude, (b0.mul f).setUnit "1/s" =
      ⟨b0.value * f.value, "1/s",
       b0.value * f.value *
         Real.sqrt (b0.relative_uncertainty ^ 2 + f.relative_uncertainty ^ 2),
       Real.sqrt (b0.relative_uncertainty ^ 2 + f.relative_uncertainty ^ 2)⟩ := by
  constructor
  · by_cases hd : date = cal
    · rw [if_pos hd]
      simp [Source.strength, hc, hd, hb]
    · rw [if_neg hd]
      have hcond : ¬s.calibration_date = some date := by
        rw [hc]
        simp only [Option.some.injEq]
        exact fun h => hd h.symm
      rcases hdf : s.decay_factor date with ⟨r, s1⟩
      rcases r with e | f
      · simp only [Source.strength, if_neg hcond, hb, hdf]
        rfl
      · simp only [Source.strength, if_neg hcond, hb, hdf]
        rfl
  · intro f
    rfl

/-- Claim C2 witness: the reference 252-Cf source at its calibration
date — exact passthrough of the stored calibration strength. -/
theorem claim2_witness :
    (Cf.strength "2012/05/20").1 =
      .ok ⟨547100000, "1/s", 547100000 * 0.013, 0.013⟩ := by
  have h := (claim2_strength Cf "2012/05/20"
    ⟨547100000, "1/s", 547100000 * 0.013, 0.013⟩ rfl rfl "2012/05/20").1
  rw [if_pos (show "2012/05/20" = "2012/05/20" from rfl)] at h
  exact h

theorem Source.get_store (s : Source) (a : Attr) (v : Option Magnitude) :
    (s.store a v).get a = v := by
  cases a <;> rfl

theorem Source.setattr_check (s : Source) (a : Attr) (m : Magnitude) :
    (s.setattr a (some m)).2 =
      (if m.value < 0 then some (.negValue a)
       else if m.uncertainty < 0 then some (.negUncertainty a)
       else if m.relative_uncertainty < 0 then some (.negRelUncertainty a)
       else if m.unit ≠ standard_units a then some (.nonStandardUnit a)
       else none) := by
  have hg := Source.get_store s a (some m)
  simp [Source.setattr, Source.check_consistency, hg]

/-- Claim C1 counterexample: assigning the violating quantity
`Magnitude(value=-1, unit='1/s', uncertainty=1, relative=1)` to
`calibration_strength` of the reference source is rejected with an
error, yet afterwards the attribute `does` hold the violating quantity:
`__setattr__` writes to `__dict__` before running
`check_consistency`. -/
theorem claim1_counterexample :
    (Cf.setattr .calibration_strength (some ⟨-1, "1/s", 1, 1⟩)).2 =
        some (.negValue .calibration_strength) ∧
      (Cf.setattr .calibration_strength
          (some ⟨-1, "1/s", 1, 1⟩)).1.calibration_strength =
        some ⟨-1, "1/s", 1, 1⟩ := by
  constructor
  · rw [Source.setattr_check]
    rw [if_pos (show (-1 : ℝ) < 0 by norm_num)]
  · rfl

/-- Claim C1 (amended): every assignment of a Quantity to a
Quantity-valued Source attribute is validated immediately, and is
accepted without error exactly when the Quantity carries the
attribute's canonical unit and a non-negative value, absolute
uncertainty, and relative uncertainty; a violating assignment is
rejected immediately with an error, but the attribute is updated before
the check runs, so after the rejection the attribute still holds the
violating Quantity. -/
theorem claim1_assignment_validation (s : Source) (a : Attr) (m : Magnitude) :
    (s.setattr a (some m)).1.get a = some m ∧
      ((s.setattr a (some m)).2 = none ↔ m.ValidFor a) := by
  refine ⟨Source.get_store s a (some m), ?_⟩
  rw [Source.setattr_check]
  unfold Magnitude.ValidFor
  split_ifs with h1 h2 h3 h4
  · exact iff_of_false (by simp) fun h => absurd h.1 (not_le.mpr h1)
  · exact iff_of_false (by simp) fun h => absurd h.2.1 (not_le.mpr h2)
  · exact iff_of_false (by simp) fun h => absurd h.2.2.1 (not_le.mpr h3)
  · exact iff_of_false (by simp) fun h => h4 h.2.2.2
  · exact iff_of_true rfl
      ⟨not_lt.mp h1, not_lt.mp h2, not_lt.mp h3, not_not.mp h4⟩

/-- Claim C4: validation of an assigned Quantity checks the value
first, then the absolute uncertainty, then the relative uncertainty,
then the unit, and reports the first violation found without
aggregating: a negative value is reported as the value error whatever
the unit; a negative uncertainty as the uncertainty error whatever the
unit; and the unit error arises only when the value and both
uncertainty forms are non-negative. -/
theorem claim4_validation_order (s : Source) (a : Attr) (m : Magnitude) :
    (m.value < 0 → (s.setattr a (some m)).2 = some (.negValue a)) ∧
      (0 ≤ m.value → m.uncertainty < 0 →
        (s.setattr a (some m)).2 = some (.negUncertainty a)) ∧
      (0 ≤ m.value → 0 ≤ m.uncertainty → m.relative_uncertainty < 0 →
        (s.setattr a (some m)).2 = some (.negRelUncertainty a)) ∧
      (0 ≤ m.value → 0 ≤ m.uncertainty → 0 ≤ m.relative_uncertainty →
        m.unit ≠ standard_units a →
        (s.setattr a (some m)).2 = some (.nonStandardUnit a)) := by
  rw [Source.setattr_check]
  refine ⟨fun h1 => ?_, fun h1 h2 => ?_, fun h1 h2 h3 => ?_,
    fun h1 h2 h3 h4 => ?_⟩
  · rw [if_pos h1]
  · rw [if_neg (not_lt.mpr h1), if_pos h2]
  · rw [if_neg (not_lt.mpr h1), if_neg (not_lt.mpr h2), if_pos h3]
  · rw [if_neg (not_lt.mpr h1), if_neg (not_lt.mpr h2),
      if_neg (not_lt.mpr h3), if_pos h4]

/-- Claim C4 witness: four concrete violating assignments, each
reported as the first violation in check order — in particular a
negative value (resp. negative uncertainty) with a non-standard unit is
reported as the value (resp. uncertainty) error, and the unit error
arises only with all numeric fields non-negative. -/
theorem claim4_witness :
    (Cf.setattr .calibration_strength (some ⟨-2, "s", 1, 1⟩)).2 =
        some (.negValue .calibration_strength) ∧
      (Cf.setattr .half_life (some ⟨1, "x", -1, 1⟩)).2 =
        some (.negUncertainty .half_life) ∧
      (Cf.setattr .anisotropy_factor (some ⟨1, "x", 1, -1⟩)).2 =
        some (.negRelUncertainty .anisotropy_factor) ∧
      (Cf.setattr .neutron_effectiveness (some ⟨1, "x", 1, 1⟩)).2 =
        some (.nonStandardUnit .neutron_effectiveness) :=
  ⟨(claim4_validation_order Cf _ _).1 (show (-2 : ℝ) < 0 by norm_num),
   (claim4_validation_order Cf _ _).2.1 (show (0 : ℝ) ≤ 1 by norm_num)
     (show (-1 : ℝ) < 0 by norm_num),
   (claim4_validation_order Cf _ _).2.2.1 (show (0 : ℝ) ≤ 1 by norm_num)
     (show (0 : ℝ) ≤ 1 by norm_num) (show (-1 : ℝ) < 0 by norm_num),
   (claim4_validation_order Cf _ _).2.2.2 (show (0 : ℝ) ≤ 1 by norm_num)
     (show (0 : ℝ) ≤ 1 by norm_num) (show (0 : ℝ) ≤ 1 by norm_num)
     (show "x" ≠ standard_units Attr.neutron_effectiveness by decide)⟩

theorem Source.numeric_attributes_eq (s : Source) :
    s.numeric_attributes =
      [("calibration_strength", optMag s.calibration_strength),
       ("half_life", optMag s.half_life),
       ("anisotropy_factor", optMag s.anisotropy_factor),
       ("linear_attenuation_coefficient",
         optMag s.linear_attenuation_coefficient),
       ("fluence_to_dose_conversion_factor",
         optMag s.fluence_to_dose_conversion_factor),
       ("neutron_effectiveness", optMag s.neutron_effectiveness),
       ("total_air_scatter_component",
         optMag s.total_air_scatter_component)] := rfl

/-- Claim C7 counterexample: the reference source's
`numeric_attributes` enumerates seven Quantity-valued fields, not
eight: the source class has exactly seven `Magnitude` attributes. -/
theorem claim7_counterexample :
    Cf.numeric_attributes.length = 7 ∧ Cf.numeric_attributes.length ≠ 8 := by
  rw [Source.numeric_attributes_eq]
  exact ⟨rfl, by decide⟩

/-- Claim C7 (amended): for every fully constructed Source,
`numeric_attributes()` enumerates exactly the seven Quantity-valued
fields — excluding `name` and `calibration_date` — as (name, Quantity)
pairs in the declaration (insertion) order of the attributes. -/
theorem claim7_numeric_attributes (s : Source)
    (m1 m2 m3 m4 m5 m6 m7 : Magnitude)
    (h1 : s.calibration_strength = some m1) (h2 : s.half_life = some m2)
    (h3 : s.anisotropy_factor = some m3)
    (h4 : s.linear_attenuation_coefficient = some m4)
    (h5 : s.fluence_to_dose_conversion_factor = some m5)
    (h6 : s.neutron_effectiveness = some m6)
    (h7 : s.total_air_scatter_component = some m7) :
    s.numeric_attributes =
        [("calibration_strength", .pmag m1), ("half_life", .pmag m2),
         ("anisotropy_factor", .pmag m3),
         ("linear_attenuation_coefficient", .pmag m4),
         ("fluence_to_dose_conversion_factor", .pmag m5),
         ("neutron_effectiveness", .pmag m6),
         ("total_air_scatter_component", .pmag m7)] ∧
      "name" ∉ s.numeric_attributes.map Prod.fst ∧
      "calibration_date" ∉ s.numeric_attributes.map Prod.fst := by
  rw [Source.numeric_attributes_eq, h1, h2, h3, h4, h5, h6, h7]
  refine ⟨rfl, ?_, ?_⟩ <;> simp [optMag]

/-- Claim C7 witness: the enumeration of the reference 252-Cf source's
seven quantities. -/
theorem claim7_witness :
    Cf.numeric_attributes =
        [("calibration_strength",
           .pmag ⟨547100000, "1/s", 547100000 * 0.013, 0.013⟩),
         ("half_life", .pmag ⟨2.6470, "y", 0.0026, 0.0026 / 2.6470⟩),
         ("anisotropy_factor", .pmag ⟨1.051, "ND", 0.019, 0.019 / 1.051⟩),
         ("linear_attenuation_coefficient",
           .pmag ⟨0.0001055, "1/cm", 0.0001055 * 0.015, 0.015⟩),
         ("fluence_to_dose_conversion_factor",
           .pmag ⟨385, "pSv·cm²", 385 * 0.01, 0.01⟩),
         ("neutron_effectiveness", .pmag ⟨0.5, "ND", 0.1, 0.1 / 0.5⟩),
         ("total_air_scatter_component",
           .pmag ⟨0.00012, "1/cm", 0.00012 * 0.15, 0.15⟩)] ∧
      "name" ∉ Cf.numeric_attributes.map Prod.fst ∧
      "calibration_date" ∉ Cf.numeric_attributes.map Prod.fst :=
  claim7_numeric_attributes Cf _ _ _ _ _ _ _ rfl rfl rfl rfl rfl rfl rfl

theorem Source.decay_time_state (s : Source) (date : String) :
    (s.decay_time date).2 = s := by
  rcases hcd : s.calibration_date with _ | cal
  · simp [Source.decay_time, hcd]
  · rcases ht : elapsed_time cal date with _ | t
    · simp [Source.decay_time, hcd, ht]
    · simp [Source.decay_time, hcd, ht]

theorem Source.decay_factor_state (s : Source) (date : String) :
    (s.decay_factor date).2 = s := by
  rcases hhl : s.half_life with _ | hl
  · simp [Source.decay_factor, hhl]
  · have hs := Source.decay_time_state s date
    rcases hdt : s.decay_time date with ⟨r, s1⟩
    rw [hdt] at hs
    rcases r with e | t
    · simp [Source.decay_factor, hhl, hdt, hs]
    · simp only [Source.decay_factor, hhl, hdt]
      split_ifs <;> simpa using hs

theorem Source.strength_state (s : Source) (date : String) :
    (s.strength date).2 = s := by
  by_cases hd : s.calibration_date = some date
  · rcases hb : s.calibration_strength with _ | b0 <;>
      simp [Source.strength, hd, hb]
  · rcases hb : s.calibration_strength with _ | b0
    · simp [Source.strength, if_neg hd, hb]
    · have hs := Source.decay_factor_state s date
      rcases hdf : s.decay_factor date with ⟨r, s1⟩
      rw [hdf] at hs
      rcases r with e | f <;> simp [Source.strength, if_neg hd, hb, hdf, hs]

theorem Source.fluence_rate_state (s : Source) (date : String)
    (distance : Magnitude) : (s.fluence_rate date distance).2 = s := by
  have hs := Source.strength_state s date
  rcases hst : s.strength date with ⟨r, s1⟩
  rw [hst] at hs
  rcases r with e | b
  · simp [Source.fluence_rate, hst, hs]
  · rcases hfi : s1.anisotropy_factor with _ | fi <;>
      simp [Source.fluence_rate, hst, hfi, hs]

theorem Source.ambient_dose_equivalent_rate_state (s : Source) (date : String)
    (distance : Magnitude) :
    (s.ambient_dose_equivalent_rate date distance).2 = s := by
  rcases hhf : s.fluence_to_dose_conversion_factor with _ | hf
  · simp [Source.ambient_dose_equivalent_rate, hhf]
  · have hs := Source.fluence_rate_state s date distance
    rcases hfr : s.fluence_rate date distance with ⟨r, s1⟩
    rw [hfr] at hs
    rcases r with e | f <;>
      simp [Source.ambient_dose_equivalent_rate, hhf, hfr, hs]

/-- Claim C10: the derived-quantity methods `decay_time`,
`decay_factor`, `strength`, `fluence_rate` and
`ambient_dose_equivalent_rate` leave every stored attribute of the
Source unchanged (the post-state equals the input state); in
particular the years-to-days conversion inside `decay_factor` is
performed on a copy, so the stored `half_life` is untouched. -/
theorem claim10_no_attribute_mutation (s : Source) (date : String)
    (distance : Magnitude) :
    (s.decay_time date).2 = s ∧ (s.decay_factor date).2 = s ∧
      (s.strength date).2 = s ∧ (s.fluence_rate date distance).2 = s ∧
      (s.ambient_dose_equivalent_rate date distance).2 = s ∧
      (s.decay_factor date).2.half_life = s.half_life :=
  ⟨Source.decay_time_state s date, Source.decay_factor_state s date,
   Source.strength_state s date, Source.fluence_rate_state s date distance,
   Source.ambient_dose_equivalent_rate_state s date distance,
   by rw [Source.decay_factor_state s date]⟩

end NeutronSource
